import Mathlib

/-!
# LibreLinker bot-prevention subsystem: shallow embedding and verification

This file embeds the client-side captcha subsystem of `src/app.js`
(challenge text generation, close-match comparison, behavior recording,
the validation decision procedure, the retry/regeneration timers and the
form-submission gate) as Lean definitions, and proves the specified
properties about them.

Modelling conventions:
* JS strings are `List Char`; `String.prototype.toLowerCase` on a single
  character is `Char.toLower` (the inputs of interest are ASCII).
* Timestamps and pixel coordinates (`Date.now()`, `clientX`/`clientY`)
  are `Int`.
* The float quotient `(perfectlyVertical + perfectlyHorizontal) / totalMoves`
  compared against the literal `0.7` is modelled over `ℚ`; with a zero
  divisor the JS quotient is `NaN` and `NaN < 0.7` is `false`, which is
  modelled by an explicit zero test.  For a nonzero divisor the numerator
  and denominator are small naturals (denominator ≤ 49), and no fraction
  `a/b` with `b ≤ 49` other than `7/10` itself rounds to the double
  nearest `0.7`, so the rational comparison agrees with the float one.
* `Math.random()` is an external random source; the generator is modelled
  as a function of an arbitrary stream of naturals, reduced modulo the
  alphabet size exactly as `Math.floor(Math.random() * chars.length)`
  always lands in `[0, chars.length)`.
-/

namespace LibreLinker

/-- The constant `chars` of `generateCaptchaText` in `src/app.js`:
`'ACDEFGHJKLMNPRTUVWXYabcdefghjkmnpqrtuvwxy34679'`. -/
def captchaChars : List Char :=
  "ACDEFGHJKLMNPRTUVWXYabcdefghjkmnpqrtuvwxy34679".toList

/-- The visually confusable glyphs that the source comments say were
removed from the alphabet. -/
def confusableGlyphs : List Char := "l1IO0oQSs5Zz2B8".toList

/-- The function `generateCaptchaText` of `src/app.js`: six characters, each chosen
by indexing the alphabet at an external random index (modelled as a
stream `rnd` of naturals, reduced modulo the alphabet length). -/
def generateCaptchaText (rnd : Nat → Nat) : List Char :=
  (List.range 6).map (fun i => captchaChars.getD (rnd i % captchaChars.length) 'A')

/-- The per-position scan inside `hasOneCaseConfusion` of `src/app.js`:
walks the two strings in lockstep; a position whose characters differ
but agree after `toLowerCase` is counted, a position whose characters
differ even after `toLowerCase` aborts with failure (`none`). -/
def caseDiffCount : List Char → List Char → Option Nat
  | [], [] => some 0
  | a :: as, b :: bs =>
    if a = b then caseDiffCount as bs
    else if a.toLower = b.toLower then (caseDiffCount as bs).map (fun n => n + 1)
    else none
  | _, _ => none

/-- The function `hasOneCaseConfusion` of `src/app.js`: true when the strings have
equal length and the lockstep scan finds exactly one case-only
difference. -/
def hasOneCaseConfusion (input expected : List Char) : Bool :=
  if input.length ≠ expected.length then false
  else caseDiffCount input expected == some 1

/-- A pointer-movement sample `{x, y, time}` as recorded by the
`mousemove` listener of `initBotPrevention`. -/
structure Movement where
  x : Int
  y : Int
  time : Int
deriving DecidableEq, Repr

/-- The loop of the mouse-linearity check in `validateCaptcha`:
over consecutive sample pairs, count perfectly vertical moves
(`|dx| < 2 ∧ dy > 5`), perfectly horizontal moves (`|dy| < 2 ∧ dx > 5`),
and all nonzero moves.  Returns `(perfectlyVertical, perfectlyHorizontal,
totalMoves)`. -/
def moveCounts : List Movement → Nat × Nat × Nat
  | [] => (0, 0, 0)
  | [_] => (0, 0, 0)
  | m1 :: m2 :: rest =>
    let c := moveCounts (m2 :: rest)
    let dx := (m2.x - m1.x).natAbs
    let dy := (m2.y - m1.y).natAbs
    if dx > 0 ∨ dy > 0 then
      ((if dx < 2 ∧ dy > 5 then c.1 + 1 else c.1),
       (if dy < 2 ∧ dx > 5 then c.2.1 + 1 else c.2.1),
       c.2.2 + 1)
    else c

/-- The mouse-linearity gate of `validateCaptcha`: with at least five
samples, the straight-move fraction must be below `0.7`.  With zero
nonzero moves the JS quotient is `NaN` and the comparison is false. -/
def hasNaturalMouseMovement (ms : List Movement) : Bool :=
  if ms.length ≥ 5 then
    let c := moveCounts ms
    if c.2.2 = 0 then false
    else decide ((c.1 + c.2.1 : ℚ) / (c.2.2 : ℚ) < 7 / 10)
  else true

/-- Consecutive differences of the keystroke timestamps, as built by the
`intervals` loop of `validateCaptcha`. -/
def keyIntervals : List Int → List Int
  | t1 :: t2 :: rest => (t2 - t1) :: keyIntervals (t2 :: rest)
  | _ => []

/-- The keystroke-timing population variance computed by
`validateCaptcha` when more than two keystrokes were recorded, and `0`
otherwise. -/
def keystrokeVariance (times : List Int) : ℚ :=
  if times.length > 2 then
    let ivs := keyIntervals times
    let avg : ℚ := ((ivs.map (fun iv => (iv : ℚ))).sum) / (ivs.length : ℚ)
    ((ivs.map (fun iv => ((iv : ℚ) - avg) ^ 2)).sum) / (ivs.length : ℚ)
  else 0

/-- The four possible results of one run of `validateCaptcha`:
no feedback yet, verified, wrong-text retry, bot-like retry. -/
inductive Outcome
  | Pending
  | Verified
  | RetryWrongText
  | RetryBotlike
deriving DecidableEq, Repr

/-- The decision procedure of `validateCaptcha` in `src/app.js`, as a
function of the input value, the current challenge text, the elapsed
time `Date.now() - captchaStartTime`, the device class, and the two
sample buffers. -/
def validateCaptcha (userInput currentText : List Char) (timeTaken : Int)
    (isMobile : Bool) (mouseMovements : List Movement)
    (keystrokes : List Int) : Outcome :=
  if userInput == currentText || hasOneCaseConfusion userInput currentText then
    if isMobile then
      if timeTaken ≥ 1200 then Outcome.Verified else Outcome.RetryBotlike
    else
      if timeTaken ≥ 1200 ∧ mouseMovements.length ≥ 3 ∧
          (keystrokeVariance keystrokes > 100 ∨ keystrokes.length < 3) ∧
          hasNaturalMouseMovement mouseMovements = true then
        Outcome.Verified
      else Outcome.RetryBotlike
  else if userInput.length ≥ currentText.length then Outcome.RetryWrongText
  else Outcome.Pending

/-- The mutable session state kept by the bot-prevention subsystem:
the free variables `currentCaptchaText`, `captchaStartTime`,
`mouseMovements`, `keystrokes`, `botPreventionPassed` of `src/app.js`
together with the observable state of the answer field, the feedback
element and the pending regeneration timer. -/
structure SessionState where
  currentText : List Char
  startTime : Int
  movements : List Movement
  keystrokes : List Int
  inputValue : List Char
  inputDisabled : Bool
  verified : Bool
  feedbackShown : Bool
  pendingRegenDelay : Option Int
deriving DecidableEq, Repr

/-- The state installed by `initBotPrevention`: fresh challenge text,
start timestamp taken now, empty buffers, nothing verified. -/
def initState (text : List Char) (now : Int) : SessionState :=
  { currentText := text
    startTime := now
    movements := []
    keystrokes := []
    inputValue := []
    inputDisabled := false
    verified := false
    feedbackShown := false
    pendingRegenDelay := none }

/-- The buffer update of the `mousemove` listener: push, then drop the
oldest sample when the buffer exceeds 50. -/
def pushMovement (buf : List Movement) (m : Movement) : List Movement :=
  if (buf ++ [m]).length > 50 then (buf ++ [m]).tail else buf ++ [m]

/-- The `mousemove` listener of `initBotPrevention`: records a sample
only while `botPreventionPassed` is false. -/
def onMouseMove (s : SessionState) (m : Movement) : SessionState :=
  if s.verified then s
  else { s with movements := pushMovement s.movements m }

/-- The `keydown` listener of `initBotPrevention`: records a timestamp
only while `botPreventionPassed` is false; the key buffer is unbounded. -/
def onKeyDown (s : SessionState) (t : Int) : SessionState :=
  if s.verified then s
  else { s with keystrokes := s.keystrokes ++ [t] }

/-- The state effects of one `validateCaptcha` run (the `input`
listener): `Verified` sets the flag and disables the field,
`RetryWrongText` clears the field and schedules regeneration in 1500 ms,
`RetryBotlike` clears the field and schedules regeneration in 2000 ms,
`Pending` leaves the state unchanged. -/
def applyValidation (isMobile : Bool) (now : Int) (s : SessionState) : SessionState :=
  match validateCaptcha s.inputValue s.currentText (now - s.startTime) isMobile
      s.movements s.keystrokes with
  | Outcome.Verified =>
      { s with verified := true, inputDisabled := true, feedbackShown := true }
  | Outcome.RetryWrongText =>
      { s with inputValue := [], feedbackShown := true, pendingRegenDelay := some 1500 }
  | Outcome.RetryBotlike =>
      { s with inputValue := [], feedbackShown := true, pendingRegenDelay := some 2000 }
  | Outcome.Pending => { s with feedbackShown := false }

/-- The deferred `setTimeout` callback of the two retry branches: it
unconditionally regenerates the challenge text, resets the start
timestamp, clears both sample buffers and the feedback.  The source
installs this callback with no handle and never calls `clearTimeout`,
so nothing in it checks whether the session was superseded. -/
def regenTimerFire (newText : List Char) (now : Int) (s : SessionState) : SessionState :=
  { s with currentText := newText
           startTime := now
           movements := []
           keystrokes := []
           feedbackShown := false
           pendingRegenDelay := none }

/-- The refresh-button click handler: regenerate the text, reset
timestamp, buffers and flag, clear and re-enable the field.  It does not
cancel a pending regeneration timer (the source keeps no timer handle),
so `pendingRegenDelay` is left as it was. -/
def manualRefresh (newText : List Char) (now : Int) (s : SessionState) : SessionState :=
  { s with currentText := newText
           startTime := now
           movements := []
           keystrokes := []
           verified := false
           inputValue := []
           inputDisabled := false
           feedbackShown := false }

/-- The discrete events the subsystem reacts to: an edit of the answer
field (which fires the `input` listener and hence `validateCaptcha`), a
pointer movement, a keypress, a refresh click, and the firing of a
scheduled regeneration timer. -/
inductive Ev
  | inputEdit (newValue : List Char) (isMobile : Bool) (now : Int)
  | mouseMove (m : Movement)
  | keyDown (t : Int)
  | refreshClick (newText : List Char) (now : Int)
  | timerFire (newText : List Char) (now : Int)
deriving DecidableEq, Repr

/-- Dispatch one event to its handler. -/
def step (s : SessionState) : Ev → SessionState
  | Ev.inputEdit v mob now => applyValidation mob now { s with inputValue := v }
  | Ev.mouseMove m => onMouseMove s m
  | Ev.keyDown t => onKeyDown s t
  | Ev.refreshClick txt now => manualRefresh txt now s
  | Ev.timerFire txt now => regenTimerFire txt now s

/-- Run a sequence of events from a state (the single-threaded event
loop). -/
def run (s : SessionState) (evs : List Ev) : SessionState :=
  evs.foldl step s

/-- The observable effects of the `contact-form` submit handler that the
verification gate controls: whether the refusal message is shown and
whether `emailjs.send` is reached. -/
structure SubmitEffects where
  refusalShown : Bool
  emailSent : Bool
deriving DecidableEq, Repr

/-- The verification gate at the top of the `contact-form` submit
handler in `src/app.js`: with `botPreventionPassed` false it shows the
refusal message and returns before the send; otherwise it proceeds to
`emailjs.send`. -/
def contactSubmit (botPreventionPassed : Bool) : SubmitEffects :=
  if !botPreventionPassed then { refusalShown := true, emailSent := false }
  else { refusalShown := false, emailSent := true }

/-- Specification-side notion for the close-match property: the list of
positions (as character pairs) at which two strings disagree. -/
def diffPositions (a b : List Char) : List (Char × Char) :=
  (a.zip b).filter (fun p => p.1 != p.2)

/-! ## Theorems -/

/-- Peeling one position off `diffPositions`. -/
theorem diffPositions_cons (a b : Char) (as bs : List Char) :
    diffPositions (a :: as) (b :: bs) =
      if a = b then diffPositions as bs else (a, b) :: diffPositions as bs := by
  by_cases hab : a = b <;> simp [diffPositions, List.filter_cons, hab]

/-- Soundness of the lockstep scan: a successful count is the number of
differing positions, and every differing position is a pure case
difference. -/
theorem caseDiffCount_some : ∀ (a b : List Char) (n : Nat),
    caseDiffCount a b = some n →
    n = (diffPositions a b).length ∧
    ∀ p ∈ diffPositions a b, p.1.toLower = p.2.toLower
  | [], [], n, h => by
    simp only [caseDiffCount, Option.some.injEq] at h
    simp [diffPositions, ← h]
  | [], _ :: _, n, h => absurd h (fun hc => Option.noConfusion hc)
  | _ :: _, [], n, h => absurd h (fun hc => Option.noConfusion hc)
  | a :: as, b :: bs, n, h => by
    simp only [caseDiffCount] at h
    rw [diffPositions_cons]
    by_cases hab : a = b
    · rw [if_pos hab] at h
      rw [if_pos hab]
      exact caseDiffCount_some as bs n h
    · rw [if_neg hab] at h
      rw [if_neg hab]
      by_cases hlow : a.toLower = b.toLower
      · rw [if_pos hlow] at h
        cases hm : caseDiffCount as bs with
        | none => rw [hm] at h; simp at h
        | some m =>
          rw [hm] at h
          simp only [Option.map_some', Option.some.injEq] at h
          have ih := caseDiffCount_some as bs m hm
          refine ⟨by simp [← h, ih.1], ?_⟩
          intro p hp
          rcases List.mem_cons.mp hp with rfl | hp'
          · exact hlow
          · exact ih.2 p hp'
      · rw [if_neg hlow] at h
        simp at h

/-- Completeness of the lockstep scan: on equal-length strings whose
differing positions are all pure case differences, the scan succeeds
and returns the number of differing positions. -/
theorem caseDiffCount_of_all_case : ∀ (a b : List Char),
    a.length = b.length →
    (∀ p ∈ diffPositions a b, p.1.toLower = p.2.toLower) →
    caseDiffCount a b = some (diffPositions a b).length
  | [], [], _, _ => by simp [caseDiffCount, diffPositions]
  | [], c :: cs, hL, _ => absurd hL (by simp)
  | c :: cs, [], hL, _ => absurd hL (by simp)
  | a :: as, b :: bs, h, hall => by
    have hlen : as.length = bs.length := by simpa using h
    rw [diffPositions_cons] at hall ⊢
    by_cases hab : a = b
    · rw [if_pos hab] at hall ⊢
      simp only [caseDiffCount, if_pos hab]
      exact caseDiffCount_of_all_case as bs hlen hall
    · rw [if_neg hab] at hall ⊢
      have hlow : a.toLower = b.toLower := hall (a, b) (List.mem_cons_self _ _)
      have ih := caseDiffCount_of_all_case as bs hlen
        (fun p hp => hall p (List.mem_cons_of_mem _ hp))
      simp only [caseDiffCount, if_neg hab, if_pos hlow, ih]
      simp

/-- C1: `hasOneCaseConfusion` holds exactly when the two strings have
the same length, differ in exactly one position, and the characters at
that position agree after lowercasing; in particular it is false for
identical strings, for more than one differing position, and for any
non-case difference. -/
theorem C1_close_match_iff (a b : List Char) :
    hasOneCaseConfusion a b = true ↔
      a.length = b.length ∧ (diffPositions a b).length = 1 ∧
      ∀ p ∈ diffPositions a b, p.1.toLower = p.2.toLower := by
  unfold hasOneCaseConfusion
  by_cases hL : a.length = b.length
  · rw [if_neg (by simp [hL])]
    constructor
    · intro h
      have h' : caseDiffCount a b = some 1 := by simpa using h
      obtain ⟨h1, h2⟩ := caseDiffCount_some a b 1 h'
      exact ⟨hL, h1.symm, h2⟩
    · rintro ⟨-, hlen1, hall⟩
      have hc := caseDiffCount_of_all_case a b hL hall
      rw [hlen1] at hc
      simp [hc]
  · rw [if_pos hL]
    simp [hL]

/-- C9: at form-submission time, a false verified flag makes the handler
show the refusal message and return before any email-send call; a true
flag never takes the refusal branch. -/
theorem C9_submit_gate :
    (contactSubmit false).refusalShown = true ∧
    (contactSubmit false).emailSent = false ∧
    (contactSubmit true).refusalShown = false := by
  decide

/-- C2 counterexample: the claim puts 47 characters in the fixed
alphabet constant, but the constant of `generateCaptchaText` holds 46
characters (20 uppercase, 21 lowercase, 5 digits). -/
theorem C2_counterexample : ¬ captchaChars.length = 47 := by
  decide

/-- C2 (amended to the actual alphabet size of 46): every generated
challenge text has length exactly 6, and each of its characters belongs
to the 46-character alphabet and is none of the visually confusable
glyphs, for every possible draw of the random source. -/
theorem C2_generator_alphabet (rnd : Nat → Nat) :
    captchaChars.length = 46 ∧
    (generateCaptchaText rnd).length = 6 ∧
    (generateCaptchaText rnd).all
      (fun c => captchaChars.contains c && !(confusableGlyphs.contains c)) = true := by
  refine ⟨by decide, by simp [generateCaptchaText], ?_⟩
  rw [List.all_eq_true]
  intro c hc
  simp only [generateCaptchaText, List.mem_map, List.mem_range] at hc
  obtain ⟨i, -, rfl⟩ := hc
  have hlt : rnd i % captchaChars.length < captchaChars.length :=
    Nat.mod_lt _ (by decide)
  rw [List.getD_eq_getElem _ _ hlt]
  have hall : ∀ c ∈ captchaChars,
      (captchaChars.contains c && !(confusableGlyphs.contains c)) = true := by decide
  exact hall _ (List.getElem_mem hlt)

/-- C4: on Mobile, an exact match with elapsed time at least 1200 ms is
Verified even with empty sample buffers; and on every device class a
text match (exact or close) with elapsed time below 1200 ms is
RetryBotlike. -/
theorem C4_mobile_bypass_and_timing_gate (input text : List Char) (t : Int)
    (ms : List Movement) (ks : List Int) :
    (input = text → t ≥ 1200 →
      validateCaptcha input text t true [] [] = Outcome.Verified) ∧
    ((input == text || hasOneCaseConfusion input text) = true → t < 1200 →
      ∀ mobile : Bool,
        validateCaptcha input text t mobile ms ks = Outcome.RetryBotlike) := by
  constructor
  · rintro rfl ht
    simp [validateCaptcha, ht]
  · intro hm ht mobile
    have hnt : ¬ (t ≥ 1200) := by omega
    cases mobile <;> simp [validateCaptcha, hm, hnt]

/-- Witness for C4 at concrete inputs. -/
theorem C4_mobile_bypass_and_timing_gate_witness :
    validateCaptcha ['A'] ['A'] 1200 true [] [] = Outcome.Verified ∧
    validateCaptcha ['A'] ['A'] 1199 false [] [] = Outcome.RetryBotlike :=
  ⟨(C4_mobile_bypass_and_timing_gate ['A'] ['A'] 1200 [] []).1 rfl (by decide),
   (C4_mobile_bypass_and_timing_gate ['A'] ['A'] 1199 [] []).2 (by decide) (by decide) false⟩

/-- C3: on Desktop, with an exact match, elapsed time at least 1200 ms,
at least 5 movement samples, and at least 70 % of the nonzero
consecutive deltas perfectly axis-aligned, the outcome is
RetryBotlike. -/
theorem C3_desktop_linear_rejection (input text : List Char) (t : Int)
    (ms : List Movement) (ks : List Int)
    (hExact : input = text) (ht : t ≥ 1200) (hlen : ms.length ≥ 5)
    (hfrac : 7 * (moveCounts ms).2.2 ≤ 10 * ((moveCounts ms).1 + (moveCounts ms).2.1)) :
    validateCaptcha input text t false ms ks = Outcome.RetryBotlike := by
  subst hExact
  have hnat : hasNaturalMouseMovement ms = false := by
    unfold hasNaturalMouseMovement
    rw [if_pos hlen]
    by_cases h0 : (moveCounts ms).2.2 = 0
    · rw [if_pos h0]
    · rw [if_neg h0]
      have htot : (0 : ℚ) < ((moveCounts ms).2.2 : ℚ) := by
        exact_mod_cast Nat.pos_of_ne_zero h0
      have hcast : (7 : ℚ) * ((moveCounts ms).2.2 : ℚ) ≤
          10 * (((moveCounts ms).1 : ℚ) + ((moveCounts ms).2.1 : ℚ)) := by
        exact_mod_cast hfrac
      rw [decide_eq_false_iff_not, not_lt, div_le_div_iff₀ (by norm_num) htot]
      linarith
  simp [validateCaptcha, hnat]

/-- Witness for C3: a run of six samples moving straight down. -/
theorem C3_desktop_linear_rejection_witness :
    ([⟨0,0,0⟩, ⟨0,10,0⟩, ⟨0,20,0⟩, ⟨0,30,0⟩, ⟨0,40,0⟩,
        (⟨0,50,0⟩ : Movement)] : List Movement).length ≥ 5 ∧
    validateCaptcha ['A'] ['A'] 1600 false
      [⟨0,0,0⟩, ⟨0,10,0⟩, ⟨0,20,0⟩, ⟨0,30,0⟩, ⟨0,40,0⟩, ⟨0,50,0⟩] [] =
      Outcome.RetryBotlike :=
  ⟨by decide,
   C3_desktop_linear_rejection ['A'] ['A'] 1600
     [⟨0,0,0⟩, ⟨0,10,0⟩, ⟨0,20,0⟩, ⟨0,30,0⟩, ⟨0,40,0⟩, ⟨0,50,0⟩] []
     rfl (by decide) (by decide) (by decide)⟩

/-- A run of samples in which the pointer never changes position
produces zero counted moves of every kind. -/
theorem moveCounts_of_stationary : ∀ ms : List Movement,
    List.Chain' (fun a b => a.x = b.x ∧ a.y = b.y) ms →
    moveCounts ms = (0, 0, 0)
  | [], _ => by simp [moveCounts]
  | [m], _ => by simp [moveCounts]
  | m1 :: m2 :: rest, h => by
    have h12 : m1.x = m2.x ∧ m1.y = m2.y := (List.chain'_cons.mp h).1
    have htail := (List.chain'_cons.mp h).2
    have ih := moveCounts_of_stationary (m2 :: rest) htail
    have hdx : (m2.x - m1.x).natAbs = 0 := by rw [h12.1]; simp
    have hdy : (m2.y - m1.y).natAbs = 0 := by rw [h12.2]; simp
    simp [moveCounts, hdx, hdy, ih]

/-- C10: on Desktop with an exact match, elapsed time at least 1200 ms,
at least 3 key samples and at least 5 movement samples whose consecutive
deltas are all zero, the divisor of the straight-line fraction is zero
and the outcome is RetryBotlike (the unguarded zero division yields NaN,
whose comparison against 0.7 is false, so the check fails rather than
crashes or passes). -/
theorem C10_stationary_pointer_rejected (input text : List Char) (t : Int)
    (ms : List Movement) (ks : List Int)
    (hExact : input = text) (ht : t ≥ 1200)
    (hks : ks.length ≥ 3) (hlen : ms.length ≥ 5)
    (hzero : List.Chain' (fun a b => a.x = b.x ∧ a.y = b.y) ms) :
    (moveCounts ms).2.2 = 0 ∧
    validateCaptcha input text t false ms ks = Outcome.RetryBotlike := by
  subst hExact
  have hmc := moveCounts_of_stationary ms hzero
  have hnat : hasNaturalMouseMovement ms = false := by
    unfold hasNaturalMouseMovement
    rw [if_pos hlen, hmc]
    simp
  exact ⟨by rw [hmc], by simp [validateCaptcha, hnat]⟩

/-- Witness for C10: five samples at the same position with three
keystrokes. -/
theorem C10_stationary_pointer_rejected_witness :
    (moveCounts [⟨7,9,0⟩, ⟨7,9,10⟩, ⟨7,9,20⟩, ⟨7,9,30⟩, ⟨7,9,40⟩]).2.2 = 0 ∧
    validateCaptcha ['A'] ['A'] 1600 false
      [⟨7,9,0⟩, ⟨7,9,10⟩, ⟨7,9,20⟩, ⟨7,9,30⟩, ⟨7,9,40⟩] [0, 50, 100] =
      Outcome.RetryBotlike :=
  C10_stationary_pointer_rejected ['A'] ['A'] 1600
    [⟨7,9,0⟩, ⟨7,9,10⟩, ⟨7,9,20⟩, ⟨7,9,30⟩, ⟨7,9,40⟩] [0, 50, 100]
    rfl (by decide) (by decide) (by decide) (by simp [List.chain'_cons])

/-- The buffer update never grows past 50 samples. -/
theorem pushMovement_length_le (buf : List Movement) (m : Movement)
    (h : buf.length ≤ 50) : (pushMovement buf m).length ≤ 50 := by
  unfold pushMovement
  split
  · simp
    omega
  · rename_i h2
    simp at h2 ⊢
    omega

/-- After folding any sample sequence into a buffer of at most 50
samples, the buffer holds exactly the last 50 elements of the combined
sequence. -/
theorem foldl_pushMovement_eq (ms : List Movement) : ∀ b : List Movement,
    b.length ≤ 50 →
    ms.foldl pushMovement b = (b ++ ms).drop ((b ++ ms).length - 50) := by
  induction ms with
  | nil =>
    intro b hb
    simp [Nat.sub_eq_zero_of_le hb]
  | cons m ms ih =>
    intro b hb
    rw [List.foldl_cons, ih (pushMovement b m) (pushMovement_length_le b m hb)]
    by_cases hle : b.length + 1 ≤ 50
    · have hp : pushMovement b m = b ++ [m] := by
        unfold pushMovement
        rw [if_neg (by simp; omega)]
      rw [hp, List.append_assoc, List.singleton_append]
    · have hlen50 : b.length = 50 := by omega
      cases b with
      | nil => simp at hlen50
      | cons hd tl =>
        have htl : tl.length = 49 := by simpa using hlen50
        have hp : pushMovement (hd :: tl) m = tl ++ [m] := by
          unfold pushMovement
          rw [if_pos (by simp [htl])]
          simp
        rw [hp, List.append_assoc, List.singleton_append]
        have hL : ((hd :: tl) ++ m :: ms).length - 50 = ((tl ++ m :: ms).length - 50) + 1 := by
          simp [htl]
          omega
        rw [hL, List.cons_append, List.drop_succ_cons]

/-- C6: after any sequence of pointer-move events starting from the
empty buffer, the buffer holds at most 50 samples and they are exactly
the most recent samples in arrival order. -/
theorem C6_movement_buffer_fifo (ms : List Movement) :
    (ms.foldl pushMovement []).length ≤ 50 ∧
    ms.foldl pushMovement [] = ms.drop (ms.length - 50) := by
  have h := foldl_pushMovement_eq ms [] (by simp)
  simp only [List.nil_append] at h
  refine ⟨?_, h⟩
  rw [h, List.length_drop]
  omega

/-- C7: on a RetryWrongText or RetryBotlike outcome the input is cleared
immediately and a regeneration is scheduled after exactly 1500 ms
(wrong text) or exactly 2000 ms (bot-like); once the scheduled
regeneration fires, both sample buffers are empty and the input field is
empty and still enabled. -/
theorem C7_retry_clears_and_schedules (mob : Bool) (now fireTime : Int)
    (s : SessionState) (newText : List Char)
    (hEnabled : s.inputDisabled = false)
    (h : validateCaptcha s.inputValue s.currentText (now - s.startTime) mob
          s.movements s.keystrokes = Outcome.RetryWrongText ∨
         validateCaptcha s.inputValue s.currentText (now - s.startTime) mob
          s.movements s.keystrokes = Outcome.RetryBotlike) :
    (applyValidation mob now s).inputValue = [] ∧
    (applyValidation mob now s).pendingRegenDelay =
      (if validateCaptcha s.inputValue s.currentText (now - s.startTime) mob
            s.movements s.keystrokes = Outcome.RetryWrongText
       then some 1500 else some 2000) ∧
    (regenTimerFire newText fireTime (applyValidation mob now s)).movements = [] ∧
    (regenTimerFire newText fireTime (applyValidation mob now s)).keystrokes = [] ∧
    (regenTimerFire newText fireTime (applyValidation mob now s)).inputValue = [] ∧
    (regenTimerFire newText fireTime (applyValidation mob now s)).inputDisabled = false := by
  rcases h with h | h <;>
    simp [applyValidation, h, regenTimerFire, hEnabled]

/-- A fresh desktop session holding a wrong full-length answer, used as
the concrete input of the C7 witness. -/
def wrongAnswerState : SessionState :=
  { initState ['A','B'] 0 with inputValue := ['C','D'] }

/-- Witness for C7: a wrong full-length answer on a fresh desktop
session. -/
theorem C7_retry_clears_and_schedules_witness :
    (applyValidation false 2000 wrongAnswerState).inputValue = [] ∧
    (applyValidation false 2000 wrongAnswerState).pendingRegenDelay =
      (if validateCaptcha wrongAnswerState.inputValue wrongAnswerState.currentText
            (2000 - wrongAnswerState.startTime) false wrongAnswerState.movements
            wrongAnswerState.keystrokes = Outcome.RetryWrongText
       then some 1500 else some 2000) ∧
    (regenTimerFire ['E','F'] 3500 (applyValidation false 2000 wrongAnswerState)).movements = [] ∧
    (regenTimerFire ['E','F'] 3500 (applyValidation false 2000 wrongAnswerState)).keystrokes = [] ∧
    (regenTimerFire ['E','F'] 3500 (applyValidation false 2000 wrongAnswerState)).inputValue = [] ∧
    (regenTimerFire ['E','F'] 3500 (applyValidation false 2000 wrongAnswerState)).inputDisabled = false :=
  C7_retry_clears_and_schedules false 2000 3500 wrongAnswerState
    ['E','F'] rfl (Or.inl (by decide))

/-- Every event handler preserves the invariant that a verified session
has its input disabled. -/
theorem step_preserves_disabled (s : SessionState) (e : Ev)
    (h : s.verified = true → s.inputDisabled = true) :
    (step s e).verified = true → (step s e).inputDisabled = true := by
  cases e with
  | inputEdit v mob now =>
    simp only [step, applyValidation]
    split <;> simp_all
  | mouseMove m =>
    simp only [step, onMouseMove]
    split <;> simp_all
  | keyDown t =>
    simp only [step, onKeyDown]
    split <;> simp_all
  | refreshClick txt now => simp [step, manualRefresh]
  | timerFire txt now => simpa [step, regenTimerFire] using h

/-- C8: once the session is verified, pointer-move and key-down events
are identities on the session state (no sample appended, nothing
altered, no validation run), and in every reachable state a verified
session has its text input disabled. -/
theorem C8_verified_is_stable (s : SessionState) (m : Movement) (t : Int)
    (text : List Char) (t0 : Int) (evs : List Ev)
    (h : s.verified = true) :
    onMouseMove s m = s ∧ onKeyDown s t = s ∧
    ((run (initState text t0) evs).verified = true →
      (run (initState text t0) evs).inputDisabled = true) := by
  refine ⟨by simp [onMouseMove, h], by simp [onKeyDown, h], ?_⟩
  have key : ∀ (l : List Ev) (s0 : SessionState),
      (s0.verified = true → s0.inputDisabled = true) →
      ((run s0 l).verified = true → (run s0 l).inputDisabled = true) := by
    intro l
    induction l with
    | nil => intro s0 h0; exact h0
    | cons e rest ih =>
      intro s0 h0
      exact ih (step s0 e) (step_preserves_disabled s0 e h0)
  exact key evs (initState text t0) (by simp [initState])

/-- A session that has already verified (flag set, input disabled), used
as the concrete input of the C8 witness. -/
def solvedState : SessionState :=
  { initState ['A'] 0 with
      inputValue := ['A'], inputDisabled := true,
      verified := true, feedbackShown := true }

/-- Witness for C8: a verified session, one pointer event and one key
event. -/
theorem C8_verified_is_stable_witness :
    onMouseMove solvedState ⟨1, 2, 3⟩ = solvedState ∧
    onKeyDown solvedState 5 = solvedState ∧
    ((run (initState ['A'] 0) [Ev.mouseMove ⟨1, 2, 3⟩]).verified = true →
      (run (initState ['A'] 0) [Ev.mouseMove ⟨1, 2, 3⟩]).inputDisabled = true) :=
  C8_verified_is_stable solvedState ⟨1, 2, 3⟩ 5 ['A'] 0 [Ev.mouseMove ⟨1, 2, 3⟩] rfl

/-- The failing trace for C5: a wrong full-length answer at t = 100
(scheduling a regeneration for 1500 ms later), a manual refresh at
t = 500 installing a fresh session, and a pointer sample at t = 700. -/
def staleTimerTrace : List Ev :=
  [Ev.inputEdit ['C','C','C','C','C','C'] false 100,
   Ev.refreshClick ['D','D','D','D','D','D'] 500,
   Ev.mouseMove ⟨3, 4, 700⟩]

/-- C5 (demonstration of the violation at the failing input): a wrong
answer at t = 100 schedules a regeneration for 1500 ms later; a manual
refresh at t = 500 installs a fresh session with new text and a pointer
sample is recorded at t = 700; when the stale timer fires at t = 2000 it
nevertheless replaces the fresh session's challenge text, resets its
start timestamp and wipes its recorded sample — nothing guards the
deferred callback against a superseded session. -/
theorem C5_stale_timer_reinitializes :
    (run (initState ['A','A','A','A','A','A'] 0)
        (staleTimerTrace ++ [Ev.timerFire ['E','E','E','E','E','E'] 2000])).currentText =
      ['E','E','E','E','E','E'] ∧
    ¬ (run (initState ['A','A','A','A','A','A'] 0)
        (staleTimerTrace ++ [Ev.timerFire ['E','E','E','E','E','E'] 2000])).currentText =
      ['D','D','D','D','D','D'] ∧
    (run (initState ['A','A','A','A','A','A'] 0)
        (staleTimerTrace ++ [Ev.timerFire ['E','E','E','E','E','E'] 2000])).movements = [] ∧
    (run (initState ['A','A','A','A','A','A'] 0)
        (staleTimerTrace ++ [Ev.timerFire ['E','E','E','E','E','E'] 2000])).startTime = 2000 ∧
    (run (initState ['A','A','A','A','A','A'] 0) staleTimerTrace).movements = [⟨3, 4, 700⟩] ∧
    (run (initState ['A','A','A','A','A','A'] 0) staleTimerTrace).currentText =
      ['D','D','D','D','D','D'] := by
  decide

end LibreLinker
